import Mathlib

/-!
Verification of `OGF_Table2Folder.py` (OrthoFinder_OGFilter).

The script is shallowly embedded here.  Python lists of strings become
`List String`, Python ints become `ℤ`, the float thresholds become `ℚ`,
and every statement that can raise is modelled in `Except PyErr`.  The
module has three pieces:

* `MainDir2OFolder` (lines 67-110), the Locator;
* `OFolder2List` (lines 112-168), the Selector, modelled from the point
  where `ortologs = file.readlines()` has produced the table lines;
* `List2Folder` (lines 171-202), the Materializer, over an abstract
  list `fs` of existing file paths.

The embedding keeps the source's faulty expressions as they are written:
`entries == 0` compares a whole Python list with an int (always `False`),
`int` is mapped over `missing_list[1:]` whose elements are lists,
`os.chdir()` is called without its required argument, `os.getcwd` is
stored without being called, and `choices=range(0.1, 1.0)` passes floats
to `range`.  Error messages are abbreviated forms of CPython's texts.
-/

/-- The Python exceptions the script can raise in the modelled fragment. -/
inductive PyErr where
  | typeError (msg : String)
  | zeroDivisionError
  | indexError
  | fileNotFoundError (msg : String)
deriving DecidableEq

/-- Message of the `TypeError` raised by `int()` on a list argument. -/
def intOfListMsg : String :=
  "int() argument must be a string, a bytes-like object or a real number, not list"

/-- Message of the `TypeError` raised by `list + str` concatenation. -/
def listPlusStrMsg : String :=
  "can only concatenate list (not \"str\") to list"

/-- Message of the `TypeError` raised by `os.chdir()` without arguments. -/
def chdirNoArgMsg : String :=
  "chdir() missing required argument (pos 1)"

/-- Message of the `TypeError` raised by `os.path.join` on a function object. -/
def fspathMsg : String :=
  "expected str, bytes or os.PathLike object, not builtin function or method"

/-- Message of the `TypeError` raised by `range` on float arguments. -/
def rangeFloatMsg : String :=
  "float object cannot be interpreted as an integer"

/-- The whitespace characters removed by Python `str.strip()` (ASCII part;
the table lines the script reads are plain ASCII-delimited text). -/
def pyIsSpace (c : Char) : Bool :=
  c = ' ' || c = '\t' || c = '\n' || c = '\r' || c = '\x0b' || c = '\x0c'

/-- Python `str.strip()`: drop leading and trailing whitespace. -/
def pyStrip (s : String) : String :=
  String.mk (((s.data.dropWhile pyIsSpace).reverse.dropWhile pyIsSpace).reverse)

/-- Helper for `str.split` on a single tab character. -/
def splitTabsAux : List Char → List Char → List String
  | [], acc => [String.mk acc.reverse]
  | c :: rest, acc =>
    if c = '\t' then String.mk acc.reverse :: splitTabsAux rest []
    else splitTabsAux rest (c :: acc)

/-- Python `s.split(chr(9))`: split on tabs, keeping empty fields. -/
def pySplitTab (s : String) : List String := splitTabsAux s.data []

/-- Line 137 and line 140 of the source: `line.strip().split(chr(9))`
followed by `columns[:-1]`, producing the row the loop works with. -/
def parseRow (line : String) : List String :=
  (pySplitTab (pyStrip line)).dropLast

/-- Python `==` between a plain list and an int: always `False`.  No
element-wise comparison happens, because `entries` is a Python list of
strings, not a numpy array. -/
def pyListEqInt (_entries : List String) (_n : ℤ) : Bool := false

/-- `np.count_nonzero` applied to the scalar boolean produced above. -/
def npCountNonzero (b : Bool) : ℕ := if b then 1 else 0

/-- Line 147: `np.count_nonzero(entries == 0) / (len(entries) - 1)`.
Raises `ZeroDivisionError` when the denominator is zero, otherwise a
division of exact values stands in for the float division. -/
def proportionOf (entries : List String) : Except PyErr ℚ :=
  let count : ℕ := npCountNonzero (pyListEqInt entries 0)
  let den : ℤ := (entries.length : ℤ) - 1
  if den = 0 then .error .zeroDivisionError
  else .ok ((count : ℚ) / (den : ℚ))

/-- Lines 147-149, the body of `for entries in line_list`: compute the
proportion and append `entries` to `missing_list` when it passes. -/
def step1 (missing : ℚ) (ml : List (List String)) (entries : List String) :
    Except PyErr (List (List String)) := do
  let proportion ← proportionOf entries
  if proportion ≤ missing then .ok (ml ++ [entries]) else .ok ml

/-- Lines 146-149: the whole `for entries in line_list` loop, threading
`missing_list`. -/
def innerLoop1 (missing : ℚ) : List (List String) → List (List String) →
    Except PyErr (List (List String))
  | [], ml => .ok ml
  | entries :: rest, ml => do
      let ml' ← step1 missing ml entries
      innerLoop1 missing rest ml'

/-- Line 153: `int` applied to an element of `missing_list[1:]`.  Every
element of `missing_list` is a row, i.e. a Python list of strings, and
`int()` of a list raises `TypeError`. -/
def pyIntOfListVal (_row : List String) : Except PyErr ℤ :=
  .error (.typeError intOfListMsg)

/-- Python `list(map(f, xs))` for a fallible `f`. -/
def mapExcept {α β ε : Type} (f : α → Except ε β) : List α → Except ε (List β)
  | [] => .ok []
  | a :: rest => do
      let b ← f a
      let bs ← mapExcept f rest
      .ok (b :: bs)

/-- Lines 151-155: the `for entries in missing_list` loop.  The body never
uses the loop variable: it maps `int` over `missing_list[1:]` and, when
every produced value is at most `copies`, appends the whole `missing_list`
to `final_list`.  `ml` is the (unmutated) `missing_list`, the third
argument is the remaining iteration, `fl` is `final_list`. -/
def innerLoop2 (copies : ℤ) (ml : List (List String)) :
    List (List String) → List (List (List String)) →
      Except PyErr (List (List (List String)))
  | [], fl => .ok fl
  | _entries :: rest, fl => do
      let integers ← mapExcept pyIntOfListVal (ml.drop 1)
      if integers.all (fun x => decide (x ≤ copies)) then
        innerLoop2 copies ml rest (fl ++ [ml])
      else
        innerLoop2 copies ml rest fl

/-- The three accumulators of the selection loop (lines 129-133):
`line_list`, `missing_list` and `final_list`. -/
structure SelState where
  line_list : List (List String)
  missing_list : List (List String)
  final_list : List (List (List String))
deriving DecidableEq

/-- Lines 135-155: the body of `for line in ortologs[1:]` — parse the
line, append it to `line_list`, then run both inner loops over the
accumulated lists. -/
def outerStep (missing : ℚ) (copies : ℤ) (st : SelState) (line : String) :
    Except PyErr SelState := do
  let columns := parseRow line
  let ll := st.line_list ++ [columns]
  let ml ← innerLoop1 missing ll st.missing_list
  let fl ← innerLoop2 copies ml ml st.final_list
  .ok ⟨ll, ml, fl⟩

/-- The full outer loop of lines 135-155. -/
def selLoop (missing : ℚ) (copies : ℤ) :
    List String → SelState → Except PyErr SelState
  | [], st => .ok st
  | line :: rest, st => do
      let st' ← outerStep missing copies st line
      selLoop missing copies rest st'

/-- The Python values that reach the output loop: strings and lists. -/
inductive PyObj where
  | str (s : String)
  | pylist (row : List String)
deriving DecidableEq

/-- Line 158: `first_elements = [entry[0] for entry in final_list]`.  Each
`entry` is the appended `missing_list`, so `entry[0]` is itself a list. -/
def firstElements (fl : List (List (List String))) :
    Except PyErr (List PyObj) :=
  mapExcept (fun entry =>
    match entry with
    | [] => (.error .indexError : Except PyErr PyObj)
    | r :: _ => .ok (PyObj.pylist r)) fl

/-- Line 166: `element + chr(10)`.  A string element concatenates; a list
element raises `TypeError`. -/
def pyAddNewline : PyObj → Except PyErr String
  | .str s => .ok (s ++ "\n")
  | .pylist _ => .error (.typeError listPlusStrMsg)

/-- Lines 164-166: the write loop for `FilteredOrthologs.txt`, returning
the accumulated file content. -/
def writeFile : List PyObj → String → Except PyErr String
  | [], acc => .ok acc
  | e :: rest, acc => do
      let piece ← pyAddNewline e
      writeFile rest (acc ++ piece)

/-- Lines 125-166 of `Table2Folder.OFolder2List`, from the point where
`ortologs = file.readlines()` holds the table lines: run the selection
loop on `ortologs[1:]`, take the first element of every entry of
`final_list`, and write them to `FilteredOrthologs.txt`.  Returns the
written file content. -/
def OFolder2List (ortologs : List String) (missing : ℚ) (copies : ℤ) :
    Except PyErr String := do
  let st ← selLoop missing copies (ortologs.drop 1) ⟨[], [], []⟩
  let fe ← firstElements st.final_list
  writeFile fe ""

/-- The line-boundary characters of Python `str.splitlines()`. -/
def isLineBoundary (c : Char) : Bool :=
  c = '\n' || c = '\r' || c = '\x0b' || c = '\x0c' ||
  c = '\x1c' || c = '\x1d' || c = '\x1e' || c = '\x85' ||
  c = '\u2028' || c = '\u2029'

/-- Helper for `str.splitlines()`: `acc` holds the current line reversed,
and `afterCr` records that the previous character was a carriage return,
so that a directly following newline is consumed with it (a CR LF pair is
a single boundary).  An unterminated final line is still produced. -/
def splitlinesAux : List Char → List Char → Bool → List String
  | [], acc, _ => if acc.isEmpty then [] else [String.mk acc.reverse]
  | c :: rest, acc, afterCr =>
    if afterCr && c = '\n' then splitlinesAux rest acc false
    else if c = '\r' then String.mk acc.reverse :: splitlinesAux rest [] true
    else if isLineBoundary c then String.mk acc.reverse :: splitlinesAux rest [] false
    else splitlinesAux rest (c :: acc) false

/-- Python `str.splitlines()`, used at line 184 to read the intermediate
list file back. -/
def pySplitlines (s : String) : List String := splitlinesAux s.data [] false

/-- Lines 164-166 write one element per line; lines 183-184 read the file
back with `file.read().splitlines()`.  This composes the two over the
SelectionResult identifiers. -/
def intermediateRoundTrip (ids : List String) : Except PyErr (List String) := do
  let content ← writeFile (ids.map PyObj.str) ""
  .ok (pySplitlines content)

/-- The file content the write loop produces from string identifiers:
each one followed by a newline. -/
def joinNl : List String → String
  | [] => ""
  | s :: rest => s ++ "\n" ++ joinNl rest

/-- `os.chdir()` called with no argument (line 76): `TypeError`. -/
def os_chdir_noargs : Except PyErr Unit := .error (.typeError chdirNoArgMsg)

/-- `Table2Folder.MainDir2OFolder` (lines 67-110).  `rootListing` stands
for `os.listdir(self.of_dir)`.  When the `OrthoFinder` entry is present,
the `os.chdir(os.path.join(self.of_dir, "OrthoFinder"))` call succeeds
and line 76 then executes `of_folder = os.chdir()`, which raises
`TypeError` before the run directories are ever listed; everything from
line 79 on (the run count checks and the interactive choice) is
unreachable. -/
def MainDir2OFolder (rootListing : List String) (of_dir : String) :
    Except PyErr Unit := do
  if "OrthoFinder" ∈ rootListing then
    os_chdir_noargs
  else
    .error (.fileNotFoundError
      ("Could not find OrthoFinder folder in " ++ of_dir ++ "."))

/-- The first argument the script passes to `os.path.join`: either a real
path string or, at lines 176 and 192, the `os.getcwd` builtin function
object itself (line 175 stores the function without calling it). -/
inductive PyPathLike where
  | pathStr (s : String)
  | builtinFunction (name : String)
deriving DecidableEq

/-- `os.fspath` on the head argument of `os.path.join`: a str passes
through, a builtin function object raises `TypeError`. -/
def os_fspath : PyPathLike → Except PyErr String
  | .pathStr s => .ok s
  | .builtinFunction _ => .error (.typeError fspathMsg)

/-- `os.path.join`, posix flavour, simplified to inserting separators
(no use in this file joins absolute components, and every call whose
result is read raises at `os_fspath` first). -/
def os_path_join (a : PyPathLike) (parts : List String) :
    Except PyErr String := do
  let base ← os_fspath a
  .ok (parts.foldl (fun acc p => acc ++ "/" ++ p) base)

/-- The copy loop of `List2Folder` (lines 190-200): for each label the
code joins `current_directory` with `"Orthogroup_Sequences"`, the label
and `".fa"` as separate path components (so even with a string cwd it
would probe `cwd/Orthogroup_Sequences/label/.fa`, not `label.fa`), checks
existence, copies, and counts. -/
def copyLoop (fs : List String) (current_directory : PyPathLike) :
    List String → ℕ → Except PyErr ℕ
  | [], og_count => .ok og_count
  | label :: rest, og_count => do
      let file_path ← os_path_join current_directory
        ["Orthogroup_Sequences", label, ".fa"]
      if file_path ∈ fs then
        copyLoop fs current_directory rest (og_count + 1)
      else
        copyLoop fs current_directory rest og_count

/-- `Table2Folder.List2Folder` (lines 171-202).  `fs` is the set of
existing file paths and `content` the text of `FilteredOrthologs.txt`.
Line 175 is `current_directory = os.getcwd` — the function object, the
call parentheses are missing — so the join at line 176 raises `TypeError`
before the list file is read.  Returns the reported copy count. -/
def List2Folder (fs : List String) (content : String) : Except PyErr ℕ := do
  let current_directory := PyPathLike.builtinFunction "getcwd"
  let _filtered_ogs ← os_path_join current_directory ["Filtered_Orthologs"]
  let og_names := pySplitlines content
  copyLoop fs current_directory og_names 0

/-- The three calls `main()` performs in order (lines 214-216):
Locator, Selector, Materializer. -/
def fullRun (rootListing : List String) (of_dir : String)
    (ortologs : List String) (missing : ℚ) (copies : ℤ) (fs : List String) :
    Except PyErr ℕ := do
  MainDir2OFolder rootListing of_dir
  let content ← OFolder2List ortologs missing copies
  List2Folder fs content

/-- The numeric arguments the script hands to `range` at line 52. -/
inductive PyNum where
  | intVal (n : ℤ)
  | floatVal (q : ℚ)
deriving DecidableEq

/-- Python `range(start, stop)`: defined on integers; any float argument
raises `TypeError`.  (The exact rational standing in for a float literal
is immaterial: `range` rejects every float.) -/
def pyRange : PyNum → PyNum → Except PyErr (List ℤ)
  | .intVal a, .intVal b => .ok ((List.range (b - a).toNat).map fun i => a + (i : ℤ))
  | _, _ => .error (.typeError rangeFloatMsg)

/-- Line 52: `choices=range(0.1, 1.0)`, evaluated when the module-level
argument parser is built — that is, on every invocation, before any
command line is parsed or any threshold is validated. -/
def missingTaxaChoices : Except PyErr (List ℤ) :=
  pyRange (.floatVal (1 / 10)) (.floatVal 1)

/-- `Except.ok` on the left of a bind. -/
theorem ok_bind {α β ε : Type} (a : α) (f : α → Except ε β) :
    (Except.ok a : Except ε α) >>= f = f a := rfl

/-- `Except.error` on the left of a bind. -/
theorem error_bind {α β ε : Type} (e : ε) (f : α → Except ε β) :
    (Except.error e : Except ε α) >>= f = Except.error e := rfl

/-- A row whose field list is not a singleton divides by a nonzero length,
and the comparison of a Python list with `0` is `False`, so the computed
proportion is `0`. -/
theorem proportionOf_eval (entries : List String) (hlen : entries.length ≠ 1) :
    proportionOf entries = .ok 0 := by
  have hden : ((entries.length : ℤ) - 1) ≠ 0 := by
    intro h
    exact hlen (by omega)
  simp [proportionOf, pyListEqInt, npCountNonzero, hden]

/-- With a nonnegative threshold the missing-taxa test appends every row. -/
theorem step1_eval (missing : ℚ) (ml : List (List String)) (entries : List String)
    (hlen : entries.length ≠ 1) (hm : 0 ≤ missing) :
    step1 missing ml entries = .ok (ml ++ [entries]) := by
  simp [step1, proportionOf_eval entries hlen, ok_bind, hm]

/-- The first inner loop appends the whole of `line_list` to `missing_list`. -/
theorem innerLoop1_eval (missing : ℚ) (ll ml : List (List String))
    (h : ∀ e ∈ ll, e.length ≠ 1) (hm : 0 ≤ missing) :
    innerLoop1 missing ll ml = .ok (ml ++ ll) := by
  induction ll generalizing ml with
  | nil => simp [innerLoop1]
  | cons e rest ih =>
      have he : e.length ≠ 1 := h e (by simp)
      have hrest : ∀ x ∈ rest, x.length ≠ 1 := fun x hx => h x (by simp [hx])
      simp [innerLoop1, step1_eval missing ml e he hm, ok_bind,
        ih (ml ++ [e]) hrest]

/-- With a singleton `missing_list`, `missing_list[1:]` is empty, `map int`
produces nothing, `all` of an empty list holds, and the single loop pass
appends `missing_list` itself to `final_list`. -/
theorem innerLoop2_single (copies : ℤ) (r : List String)
    (fl : List (List (List String))) :
    innerLoop2 copies [r] [r] fl = .ok (fl ++ [[r]]) := rfl

/-- With two or more entries in `missing_list`, the first loop pass maps
`int` over a nonempty `missing_list[1:]` and raises `TypeError`. -/
theorem innerLoop2_crash (copies : ℤ) (a b : List String)
    (t : List (List String)) (x : List String) (iter : List (List String))
    (fl : List (List (List String))) :
    innerLoop2 copies (a :: b :: t) (x :: iter) fl =
      .error (.typeError intOfListMsg) := rfl

/-- Processing the first data line from the empty accumulators succeeds and
leaves the row once in each accumulator. -/
theorem outerStep_first (missing : ℚ) (copies : ℤ) (l : String)
    (h : (parseRow l).length ≠ 1) (hm : 0 ≤ missing) :
    outerStep missing copies ⟨[], [], []⟩ l =
      .ok ⟨[parseRow l], [parseRow l], [[parseRow l]]⟩ := by
  simp [outerStep, innerLoop1_eval missing [parseRow l] [] (by simpa using h) hm,
    ok_bind, innerLoop2_single]

/-- Processing a second data line raises: `missing_list` has grown to three
entries, so the `int` map hits a list. -/
theorem outerStep_second_crash (missing : ℚ) (copies : ℤ) (c1 : List String)
    (l2 : String) (h1 : c1.length ≠ 1) (h2 : (parseRow l2).length ≠ 1)
    (hm : 0 ≤ missing) :
    outerStep missing copies ⟨[c1], [c1], [[c1]]⟩ l2 =
      .error (.typeError intOfListMsg) := by
  have hboth : ∀ e ∈ [c1, parseRow l2], e.length ≠ 1 := by
    intro e he
    simp at he
    rcases he with rfl | rfl
    · exact h1
    · exact h2
  simp [outerStep, innerLoop1_eval missing [c1, parseRow l2] [c1] hboth hm,
    ok_bind, innerLoop2_crash, error_bind]

/-- Any table with at least one data row makes `OFolder2List` raise an
uncaught `TypeError`: at the write of the output file when there is exactly
one data row, at the `int` map when there are two or more. -/
theorem selector_crash (ortologs : List String) (missing : ℚ) (copies : ℤ)
    (hne : ortologs.drop 1 ≠ [])
    (hrows : ∀ l ∈ ortologs.drop 1, (parseRow l).length ≠ 1)
    (hm : 0 ≤ missing) :
    OFolder2List ortologs missing copies =
      .error (.typeError
        (if (ortologs.drop 1).length = 1 then listPlusStrMsg
         else intOfListMsg)) := by
  rcases hds : ortologs.drop 1 with _ | ⟨l1, rest⟩
  · exact absurd hds hne
  · rcases rest with _ | ⟨l2, rest2⟩
    · have h1 : (parseRow l1).length ≠ 1 := hrows l1 (by simp [hds])
      simp [OFolder2List, hds, selLoop, outerStep_first missing copies l1 h1 hm,
        ok_bind, error_bind, firstElements, mapExcept, writeFile, pyAddNewline]
    · have h1 : (parseRow l1).length ≠ 1 := hrows l1 (by simp [hds])
      have h2 : (parseRow l2).length ≠ 1 := hrows l2 (by simp [hds])
      simp [OFolder2List, hds, selLoop, outerStep_first missing copies l1 h1 hm,
        ok_bind, outerStep_second_crash missing copies (parseRow l1) l2 h1 h2 hm,
        error_bind]

/-- A newline terminates the current line. -/
theorem splitlinesAux_newline (rest acc : List Char) :
    splitlinesAux ('\n' :: rest) acc false =
      String.mk acc.reverse :: splitlinesAux rest [] false := rfl

/-- A non-boundary character is accumulated into the current line. -/
theorem splitlinesAux_nonboundary (c : Char) (rest acc : List Char)
    (h : isLineBoundary c = false) :
    splitlinesAux (c :: rest) acc false =
      splitlinesAux rest (c :: acc) false := by
  have hcr : c ≠ '\r' := by
    intro he
    rw [he] at h
    simp [isLineBoundary] at h
  simp [splitlinesAux, hcr, h]

/-- A boundary-free chunk terminated by a newline is read back as one
line. -/
theorem splitlinesAux_line (id rest acc : List Char)
    (h : ∀ c ∈ id, isLineBoundary c = false) :
    splitlinesAux (id ++ '\n' :: rest) acc false =
      String.mk (acc.reverse ++ id) :: splitlinesAux rest [] false := by
  induction id generalizing acc with
  | nil => simpa using splitlinesAux_newline rest acc
  | cons c id2 ih =>
      have hc : isLineBoundary c = false := h c (by simp)
      have hid2 : ∀ x ∈ id2, isLineBoundary x = false :=
        fun x hx => h x (by simp [hx])
      rw [List.cons_append, splitlinesAux_nonboundary c _ acc hc,
        ih (c :: acc) hid2]
      simp

/-- On string elements the write loop succeeds and produces each
identifier followed by a newline. -/
theorem writeFile_strs (ids : List String) (acc : String) :
    writeFile (ids.map PyObj.str) acc = .ok (acc ++ joinNl ids) := by
  induction ids generalizing acc with
  | nil => simp [writeFile, joinNl]
  | cons s rest ih =>
      simp [writeFile, pyAddNewline, ok_bind, ih (acc ++ (s ++ "\n")), joinNl,
        String.append_assoc]

/-- Reading back newline-joined identifiers that contain no line-boundary
character recovers them exactly. -/
theorem splitlines_joinNl (ids : List String)
    (h : ∀ s ∈ ids, ∀ c ∈ s.data, isLineBoundary c = false) :
    pySplitlines (joinNl ids) = ids := by
  induction ids with
  | nil => rfl
  | cons s rest ih =>
      have hs : ∀ c ∈ s.data, isLineBoundary c = false := h s (by simp)
      have hrest : ∀ x ∈ rest, ∀ c ∈ x.data, isLineBoundary c = false :=
        fun x hx => h x (by simp [hx])
      show splitlinesAux (joinNl (s :: rest)).data [] false = s :: rest
      have hdata : (joinNl (s :: rest)).data =
          s.data ++ '\n' :: (joinNl rest).data := by
        show (s ++ "\n" ++ joinNl rest).data =
          s.data ++ '\n' :: (joinNl rest).data
        simp
      rw [hdata, splitlinesAux_line s.data _ [] hs]
      simpa using ih hrest

/-- C1: the spec says that for Scenario A — header
`Orthogroup, Sp1, Sp2, Sp3, Total`, row `OG1, 2, 0, 1, 3`, thresholds
`max_missing_fraction = 0.5`, `max_copies = 2` — the row qualifies iff
`missing_fraction <= 0.5` and `max(counts) <= 2`, so OG1 qualifies.  The
code never selects OG1: `OFolder2List` on this very table raises
`TypeError` (a list is concatenated with a string while writing the
output file), so the claimed qualification rule is not what the code
computes. -/
theorem c1_scenarioA_code_raises :
    OFolder2List ["Orthogroup\tSp1\tSp2\tSp3\tTotal\n", "OG1\t2\t0\t1\t3\n"]
      (1 / 2) 2 = .error (.typeError listPlusStrMsg) := by
  have h := selector_crash
    ["Orthogroup\tSp1\tSp2\tSp3\tTotal\n", "OG1\t2\t0\t1\t3\n"] (1 / 2) 2
    (by decide) (by decide) (by norm_num)
  simpa using h

/-- C2: the spec says SelectionResult is an ordered sequence of
`group_id` values present in the table.  On the one-row Scenario A table
the value the code builds at line 158 (`first_elements`) contains the
whole row — a Python list of four fields — rather than the `group_id`
string `OG1`, so its element is not a `group_id` of the table. -/
theorem c2_selection_element_is_row_not_id :
    (do
      let st ← selLoop (1 / 2) 2
        (["Orthogroup\tSp1\tSp2\tSp3\tTotal\n", "OG1\t2\t0\t1\t3\n"].drop 1)
        ⟨[], [], []⟩
      firstElements st.final_list)
      = .ok [PyObj.pylist ["OG1", "2", "0", "1"]] := by
  have h1 : (parseRow "OG1\t2\t0\t1\t3\n").length ≠ 1 := by decide
  have ho := outerStep_first (1 / 2 : ℚ) 2 "OG1\t2\t0\t1\t3\n" h1 (by norm_num)
  simp only [List.drop_succ_cons, List.drop_zero, selLoop, ho, ok_bind]
  rfl

/-- C3: for every table with at least one data row (rows shaped as in any
valid table: the trimmed field list is never a singleton) and any
nonnegative missing threshold, `OFolder2List` raises an uncaught
`TypeError` — from `int` applied to a list element of `missing_list[1:]`
when there are two or more data rows, from the `list + str` concatenation
at the output write when there is exactly one — and so never writes a
non-empty `FilteredOrthologs.txt`. -/
theorem c3_selector_always_raises (ortologs : List String) (missing : ℚ)
    (copies : ℤ) (hne : ortologs.drop 1 ≠ [])
    (hrows : ∀ l ∈ ortologs.drop 1, (parseRow l).length ≠ 1)
    (hm : 0 ≤ missing) :
    OFolder2List ortologs missing copies =
      .error (.typeError
        (if (ortologs.drop 1).length = 1 then listPlusStrMsg
         else intOfListMsg)) :=
  selector_crash ortologs missing copies hne hrows hm

/-- Witness for C3 at a concrete two-data-row table: the `int` map
`TypeError` is raised. -/
theorem c3_selector_always_raises_witness :
    OFolder2List
      ["Orthogroup\tSp1\tSp2\tSp3\tTotal\n", "OG1\t2\t0\t1\t3\n",
       "OG2\t1\t1\t1\t3\n"] 0 5 = .error (.typeError intOfListMsg) := by
  have h := c3_selector_always_raises
    ["Orthogroup\tSp1\tSp2\tSp3\tTotal\n", "OG1\t2\t0\t1\t3\n",
     "OG2\t1\t1\t1\t3\n"] 0 5 (by decide) (by decide) le_rfl
  simpa using h

/-- C4: for every data row (of the shape any valid table produces), the
proportion computed at line 147 is `0`, because `entries == 0` compares a
Python list with an int and is always `False`; hence with any
`max_missing_fraction >= 0` the missing-taxa test never excludes a row —
`step1` appends every row to `missing_list`. -/
theorem c4_missing_test_never_excludes (entries : List String)
    (hlen : entries.length ≠ 1) :
    proportionOf entries = .ok 0 ∧
    ∀ (missing : ℚ) (ml : List (List String)), 0 ≤ missing →
      step1 missing ml entries = .ok (ml ++ [entries]) :=
  ⟨proportionOf_eval entries hlen,
   fun missing ml hm => step1_eval missing ml entries hlen hm⟩

/-- Witness for C4 on the Scenario A row with threshold `0`. -/
theorem c4_missing_test_never_excludes_witness :
    proportionOf ["OG1", "2", "0", "1"] = .ok 0 ∧
    step1 0 [] ["OG1", "2", "0", "1"] = .ok [["OG1", "2", "0", "1"]] := by
  refine ⟨(c4_missing_test_never_excludes ["OG1", "2", "0", "1"]
    (by decide)).1, ?_⟩
  have h := (c4_missing_test_never_excludes ["OG1", "2", "0", "1"]
    (by decide)).2 0 [] le_rfl
  simpa using h

/-- C5: the spec says that with `max_missing_fraction = 1.0` and a
maximal `max_copies` every data row qualifies.  The code instead raises
`TypeError` on the Scenario A table even under these fully relaxed
thresholds, so no row ever qualifies. -/
theorem c5_relaxed_thresholds_still_crash :
    OFolder2List ["Orthogroup\tSp1\tSp2\tSp3\tTotal\n", "OG1\t2\t0\t1\t3\n"]
      1 1000000 = .error (.typeError listPlusStrMsg) := by
  have h := selector_crash
    ["Orthogroup\tSp1\tSp2\tSp3\tTotal\n", "OG1\t2\t0\t1\t3\n"] 1 1000000
    (by decide) (by decide) (by norm_num)
  simpa using h

/-- C6 (amended): writing a SelectionResult whose identifiers contain no
line-boundary character to the intermediate list file and reading it back
with `splitlines` yields exactly the same ordered sequence — no
reordering, no deduplication, no loss. -/
theorem c6_roundtrip_no_boundary (ids : List String)
    (h : ∀ s ∈ ids, ∀ c ∈ s.data, isLineBoundary c = false) :
    intermediateRoundTrip ids = .ok ids := by
  rw [intermediateRoundTrip, writeFile_strs ids "", ok_bind]
  rw [show ("" ++ joinNl ids : String) = joinNl ids by simp]
  rw [splitlines_joinNl ids h]

/-- Witness for C6 on two ordinary orthogroup identifiers. -/
theorem c6_roundtrip_no_boundary_witness :
    intermediateRoundTrip ["OG0000001", "OG0000002"] =
      .ok ["OG0000001", "OG0000002"] :=
  c6_roundtrip_no_boundary ["OG0000001", "OG0000002"] (by decide)

/-- Counterexample to C6 as stated: an identifier containing a carriage
return is split in two by `splitlines` on the way back, so the round trip
is not the identity for every SelectionResult. -/
theorem c6_boundary_char_breaks_roundtrip :
    intermediateRoundTrip ["A\rB"] = .ok ["A", "B"] ∧
    (["A", "B"] : List String) ≠ ["A\rB"] :=
  ⟨rfl, by decide⟩

/-- C7 (amended): on a header-only table the Selector itself produces an
empty SelectionResult and writes an empty intermediate list without
raising; the run as a whole nevertheless does not complete successfully,
because the Locator raises `TypeError` at the argument-less `os.chdir()`
(and the Materializer would raise at `os.path.join(os.getcwd, ...)`), so
no zero-copies report is ever produced. -/
theorem c7_header_only_selector_succeeds (hdr of_dir : String) (missing : ℚ)
    (copies : ℤ) (fs : List String) :
    OFolder2List [hdr] missing copies = .ok "" ∧
    fullRun ["OrthoFinder"] of_dir [hdr] missing copies fs =
      .error (.typeError chdirNoArgMsg) :=
  ⟨rfl, rfl⟩

/-- Counterexample to C7 as stated: a concrete run on a header-only table
raises instead of completing successfully with a zero-copies report. -/
theorem c7_full_run_raises_counterexample :
    fullRun ["OrthoFinder"] "/data" ["Orthogroup\tSp1\tSp2\tSp3\tTotal\n"]
      1 2 [] = .error (.typeError chdirNoArgMsg) := rfl

/-- C8: the spec says threshold validation happens before parsing and
that in-domain thresholds pass it.  The code instead evaluates
`choices=range(0.1, 1.0)` while building the argument parser — on every
invocation, before any command line is seen — and `range` raises
`TypeError` on float arguments, so no invocation ever reaches validation,
let alone passes it. -/
theorem c8_parser_choices_raise :
    missingTaxaChoices = .error (.typeError rangeFloatMsg) := rfl

/-- C9: the spec says the Locator fails with `NotFound` exactly when the
root lacks the `OrthoFinder` subdirectory or no runs exist, and resolves
a single run without error.  The code raises `FileNotFoundError` on a
missing subdirectory as claimed, but whenever the subdirectory is present
— runs or no runs — it raises `TypeError` at the argument-less
`os.chdir()` before ever listing runs, so the single-run case never
resolves. -/
theorem c9_locator_raises :
    MainDir2OFolder ["OrthoFinder", "fastas"] "/data" =
      .error (.typeError chdirNoArgMsg) ∧
    MainDir2OFolder ["fastas"] "/data" =
      .error (.fileNotFoundError
        "Could not find OrthoFinder folder in /data.") :=
  ⟨rfl, rfl⟩

/-- C10: the spec says the Materializer looks up `identifier + .fa`, warns
and continues on a missing file, and reports the copied count.  The code
raises `TypeError` on every input before reading the selection list: line
175 stores the `os.getcwd` function object without calling it, and the
first `os.path.join` on it fails (were that repaired, the lookup would
still probe `Orthogroup_Sequences/<label>/.fa`, not `<label>.fa`). -/
theorem c10_materializer_raises (fs : List String) (content : String) :
    List2Folder fs content = .error (.typeError fspathMsg) := rfl
